import Mathlib

/-!
Shallow embedding of the RBAC / token-authentication core of the
Transportation-Forms backend (`backend/auth/jwt_handler.py`,
`backend/auth/permissions.py`, `backend/auth/authorization.py`,
`backend/auth/dependencies.py`, `backend/services/forms.py`).

Tokens are modelled as structured values: a token string either fails to
parse (`TokenString.malformed`) or carries a claim payload together with the
identifier of the key pair that signed it.  `jwtDecode` models
`jwt.decode(...)` from PyJWT as used by the handler: signature, then expiry
(when requested), then audience, then issuer.  Claims that `payload.get`
may find missing are `Option`-valued.  Machine time is an `Int` parameter.
-/

deriving instance DecidableEq for Except

namespace TransportationForms

/-- Token configuration constants from `jwt_handler.py` (seconds). -/
def ACCESS_TOKEN_EXPIRY : Int := 30 * 60

def REFRESH_TOKEN_EXPIRY : Int := 7 * 24 * 60 * 60

def TOKEN_ISSUER : String := "transportation-forms-api"

def TOKEN_AUDIENCE : String := "transportation-forms-web"

/-- The claim set a token may carry.  `tokType` models the `"type"` claim
(`type` is a keyword in Lean).  Claims read with `payload.get(...)` in the
source may be absent, hence the `Option` fields. -/
structure Payload where
  sub : Option String
  email : Option String
  name : Option String
  roles : Option (List String)
  iss : String
  aud : String
  exp : Option Int
  iat : Option Int
  tokType : Option String
deriving DecidableEq

/-- A parseable compact token: payload plus the key pair that signed it. -/
structure SignedToken where
  payload : Payload
  key : Nat
deriving DecidableEq

/-- A token string: either unparseable, or a signed token. -/
inductive TokenString
  | malformed
  | signed (t : SignedToken)
deriving DecidableEq

/-- Failure kinds of `jwt.decode` as the handler distinguishes them. -/
inductive JwtError
  | malformed
  | badSignature
  | expired
  | badAudience
  | badIssuer
deriving DecidableEq

/-- Does the payload carry an `exp` claim that has passed?  (PyJWT raises
`ExpiredSignatureError` when `exp <= now`; a missing `exp` is not checked.) -/
def expHasPassed (p : Payload) (now : Int) : Prop :=
  match p.exp with
  | some e => e ≤ now
  | none => False

instance (p : Payload) (now : Int) : Decidable (expHasPassed p now) := by
  unfold expHasPassed
  match p.exp with
  | some e => exact inferInstanceAs (Decidable (e ≤ now))
  | none => exact inferInstanceAs (Decidable False)

/-- Model of `jwt.decode(token, PUBLIC_KEY, algorithms=[ALGORITHM],
audience=TOKEN_AUDIENCE, issuer=TOKEN_ISSUER, options=...)`: parse, verify
the signature against the expected key pair, then (unless disabled) expiry,
then audience, then issuer. -/
def jwtDecode (pub : Nat) (verifyExp : Bool) (now : Int) (t : TokenString) :
    Except JwtError Payload :=
  match t with
  | .malformed => .error .malformed
  | .signed tok =>
    if tok.key ≠ pub then .error .badSignature
    else if verifyExp = true ∧ expHasPassed tok.payload now then .error .expired
    else if tok.payload.aud ≠ TOKEN_AUDIENCE then .error .badAudience
    else if tok.payload.iss ≠ TOKEN_ISSUER then .error .badIssuer
    else .ok tok.payload

/-- Decoded token data (`TokenData` in `jwt_handler.py`).  Fields read with
`payload.get` can be `None` in the source, hence `Option`. -/
structure TokenData where
  sub : Option String
  email : Option String
  name : Option String
  roles : List String
  token_type : String
deriving DecidableEq

/-- The distinguishable `ValueError` messages `validate_token` raises. -/
inductive ValidationError
  | expired
  | badAudience
  | badIssuer
  | malformed
  | badSignature
  | typeMismatch
deriving DecidableEq

def liftJwtError : JwtError → ValidationError
  | .malformed => .malformed
  | .badSignature => .badSignature
  | .expired => .expired
  | .badAudience => .badAudience
  | .badIssuer => .badIssuer

namespace JWTHandler

/-- `JWTHandler.generate_access_token`: embeds subject, email, name, roles,
issuer, audience, expiry = now + delta (default 1800 s), issued-at, and
`type = "access"`, signed with the service key pair. -/
def generate_access_token (key : Nat) (now : Int) (user_id email name : String)
    (roles : List String) (expires_delta : Option Int) : TokenString :=
  let delta := expires_delta.getD ACCESS_TOKEN_EXPIRY
  .signed
    { payload :=
        { sub := some user_id
          email := some email
          name := some name
          roles := some roles
          iss := TOKEN_ISSUER
          aud := TOKEN_AUDIENCE
          exp := some (now + delta)
          iat := some now
          tokType := some "access" }
      key := key }

/-- `JWTHandler.generate_refresh_token`: embeds only subject, issuer,
audience, expiry = now + delta (default 604800 s), issued-at, and
`type = "refresh"`. -/
def generate_refresh_token (key : Nat) (now : Int) (user_id : String)
    (expires_delta : Option Int) : TokenString :=
  let delta := expires_delta.getD REFRESH_TOKEN_EXPIRY
  .signed
    { payload :=
        { sub := some user_id
          email := none
          name := none
          roles := none
          iss := TOKEN_ISSUER
          aud := TOKEN_AUDIENCE
          exp := some (now + delta)
          iat := some now
          tokType := some "refresh" }
      key := key }

/-- `JWTHandler.validate_token`: full decode (signature, expiry, audience,
issuer), then the `type` claim must equal the expected type; refresh tokens
yield a `TokenData` with blank email/name and empty roles, access tokens
yield all claims (roles defaulting to the empty list). -/
def validate_token (key : Nat) (now : Int) (token : TokenString)
    (token_type : String) : Except ValidationError TokenData :=
  match jwtDecode key true now token with
  | .error e => .error (liftJwtError e)
  | .ok payload =>
    if payload.tokType ≠ some token_type then .error .typeMismatch
    else if token_type = "refresh" then
      .ok { sub := payload.sub, email := some "", name := some "",
            roles := [], token_type := token_type }
    else
      .ok { sub := payload.sub, email := payload.email, name := payload.name,
            roles := payload.roles.getD [], token_type := token_type }

/-- Failure kinds of `refresh_access_token` (distinguishable `ValueError`s). -/
inductive RefreshError
  | validation (e : ValidationError)
  | subjectMismatch
deriving DecidableEq

/-- `JWTHandler.refresh_access_token`: validate the refresh token as type
`"refresh"`, fail when its embedded subject differs from the supplied
`user_id`, otherwise mint a fresh access token for `user_id`. -/
def refresh_access_token (key : Nat) (now : Int) (refresh_token : TokenString)
    (user_id email name : String) (roles : List String) :
    Except RefreshError TokenString :=
  match validate_token key now refresh_token "refresh" with
  | .error e => .error (.validation e)
  | .ok token_data =>
    if token_data.sub ≠ some user_id then .error .subjectMismatch
    else .ok (generate_access_token key now user_id email name roles none)

/-- `JWTHandler.get_token_expiry_seconds`: decode without expiry
verification (signature, audience and issuer still checked), then return the
clamped non-negative seconds to `exp`, `none` when decoding fails or the
`exp` claim is absent.  The `token_type` argument is accepted and unused,
as in the source. -/
def get_token_expiry_seconds (key : Nat) (now : Int) (token : TokenString)
    (token_type : String) : Option Int :=
  match jwtDecode key false now token with
  | .error _ => none
  | .ok payload =>
    match payload.exp with
    | none => none
    | some exp_timestamp => some (max 0 (exp_timestamp - now))

end JWTHandler

/-!  `backend/auth/permissions.py`: inheritance rules and the static
resource→action→permission registry.  Permission identifiers are the string
values of the `Permission` enum. -/

/-- `get_inherited_permissions`: start from the set of the given
permissions, then apply the three fixed inheritance rules in order.  Each
rule tests membership in the accumulated result or among the original
permissions (the two disjuncts the source writes) and inserts the implied
permission.  The source takes a list and immediately rebuilds a set from
it; membership is the only operation performed on either, so the argument
is modelled as the permission set itself. -/
def get_inherited_permissions (permissions : Finset String) : Finset String :=
  let result0 := permissions
  let result1 :=
    if "form:delete" ∈ result0 ∨ "form:delete" ∈ permissions then
      insert "form:edit" result0
    else result0
  let result2 :=
    if "user:manage_roles" ∈ result1 ∨ "user:manage_roles" ∈ permissions then
      insert "user:read" result1
    else result1
  if "business_area:manage" ∈ result2 ∨ "business_area:manage" ∈ permissions then
    insert "business_area:read" result2
  else result2

/-- `RESOURCE_ACTION_PERMISSIONS`: the static nested registry, as an
association list of (resource, association list of (action, permission)). -/
def RESOURCE_ACTION_PERMISSIONS : List (String × List (String × String)) :=
  [ ("forms",
      [ ("create", "form:create"), ("read", "form:read"),
        ("update", "form:edit"), ("delete", "form:delete"),
        ("archive", "form:archive"), ("submit", "form:submit_for_review"),
        ("review", "form:review"), ("approve", "form:approve"),
        ("publish", "form:publish") ]),
    ("business_areas",
      [ ("create", "business_area:create"), ("read", "business_area:read"),
        ("update", "business_area:edit"), ("delete", "business_area:delete"),
        ("manage", "business_area:manage") ]),
    ("categories",
      [ ("create", "category:create"), ("read", "category:read"),
        ("update", "category:edit"), ("delete", "category:delete") ]),
    ("users",
      [ ("create", "user:create"), ("read", "user:read"),
        ("update", "user:edit"), ("delete", "user:delete"),
        ("manage_roles", "user:manage_roles"),
        ("manage_permissions", "user:manage_permissions") ]),
    ("roles",
      [ ("create", "role:create"), ("read", "role:read"),
        ("update", "role:edit"), ("delete", "role:delete") ]),
    ("audit",
      [ ("view", "audit_log:view"), ("export", "audit_log:export") ]),
    ("reports", [ ("view", "report:view") ]),
    ("system",
      [ ("config", "system:config"), ("health", "system:health") ]) ]

/-- The distinguishable `ValueError`s of `get_permission_for_resource_action`. -/
inductive CatalogError
  | unknownResource (resource : String)
  | unknownAction (resource action : String)
deriving DecidableEq

/-- `get_permission_for_resource_action`: look the resource up in the
registry, then the action in the resource's table; fail with a
configuration error when either is absent — never a default permission. -/
def get_permission_for_resource_action (resource action : String) :
    Except CatalogError String :=
  match RESOURCE_ACTION_PERMISSIONS.find? (fun e => e.fst == resource) with
  | none => .error (.unknownResource resource)
  | some entry =>
    match entry.snd.find? (fun e => e.fst == action) with
    | none => .error (.unknownAction resource action)
    | some pair => .ok pair.snd

/-!  `backend/auth/authorization.py`: permission resolution over stored role
assignments, the audit filter, and the gate dependencies.  The relational
store is modelled as the lists of user ids and `UserRole` rows the queries
touch. -/

/-- A role's stored permissions: the source tolerates either a list of
permission strings or a mapping whose keys are permission strings. -/
inductive RolePermissions
  | plist (ps : List String)
  | pdict (keys : List String)
deriving DecidableEq

/-- A `Role` row (the fields the resolver reads). -/
structure Role where
  name : String
  permissions : RolePermissions
  is_active : Bool
  deleted_at : Option Int
deriving DecidableEq

/-- A `UserRole` row: the assignment's user, its (possibly missing) role
relationship, and its soft-delete marker. -/
structure UserRole where
  user_id : String
  role : Option Role
  deleted_at : Option Int
deriving DecidableEq

/-- The slice of the store the resolver and the recorder query. -/
structure Db where
  users : List String
  user_roles : List UserRole
deriving DecidableEq

/-- The permission strings a role contributes (list elements, or dict keys). -/
def rolePermissionStrings : RolePermissions → Finset String
  | .plist ps => ps.toFinset
  | .pdict keys => keys.toFinset

/-- The permissions one assignment row contributes: nothing unless the role
relationship is present, active and not soft-deleted. -/
def assignmentPermissions (ur : UserRole) : Finset String :=
  match ur.role with
  | none => ∅
  | some role =>
    if role.is_active = true ∧ role.deleted_at = none then
      rolePermissionStrings role.permissions
    else ∅

/-- `get_user_permissions`: empty when the user row is absent; otherwise
union the permissions of every non-soft-deleted assignment whose role is
active and live, then apply the inheritance rules. -/
def get_user_permissions (db : Db) (user_id : String) : Finset String :=
  if user_id ∈ db.users then
    let user_roles := db.user_roles.filter
      (fun ur => decide (ur.user_id = user_id ∧ ur.deleted_at = none))
    let all_permissions :=
      user_roles.foldl (fun acc ur => acc ∪ assignmentPermissions ur) ∅
    get_inherited_permissions all_permissions
  else ∅

/-- `has_permission`. -/
def has_permission (db : Db) (user_id permission : String) : Bool :=
  decide (permission ∈ get_user_permissions db user_id)

/-- `has_any_permission`. -/
def has_any_permission (db : Db) (user_id : String)
    (permissions : List String) : Bool :=
  let user_permissions := get_user_permissions db user_id
  permissions.any (fun perm => decide (perm ∈ user_permissions))

/-- `has_all_permissions`. -/
def has_all_permissions (db : Db) (user_id : String)
    (permissions : List String) : Bool :=
  let user_permissions := get_user_permissions db user_id
  permissions.all (fun perm => decide (perm ∈ user_permissions))

/-!  Audit recording (`log_permission_check` in `authorization.py` and
`FormService._audit_log` in `services/forms.py`).  An insert into the audit
table may fail; the boolean `insertFails` abstracts that environment fact,
and `tryInsertAudit` is the fallible `db.add`/`db.commit` step.  Both
recorders catch every failure and roll back, so their results are the rows
actually committed — never an exception. -/

/-- One committed audit row (the columns the claims inspect; `allowed` is
the `allowed` element of `new_values`, absent for entity-mutation rows). -/
structure AuditEntry where
  user_id : String
  action : String
  entity_type : String
  entity_id : String
  allowed : Option Bool
deriving DecidableEq

/-- The fallible `db.add(...); db.commit()` of an audit insert. -/
def tryInsertAudit (insertFails : Bool) (entry : AuditEntry) :
    Except String (List AuditEntry) :=
  if insertFails then .error "audit insert failed" else .ok [entry]

/-- The permissions whose successful checks `log_permission_check` records. -/
def SENSITIVE_LOG_PERMISSIONS : List String :=
  [ "user:manage_roles", "user:manage_permissions", "role:create",
    "role:edit", "role:delete", "system:config", "audit_log:export" ]

/-- `log_permission_check`: no-op without a session; write only for denials
or sensitive permissions; silently skip when the user row is absent; swallow
any insert failure after rolling back.  Returns the committed rows. -/
def log_permission_check (db : Db) (insertFails : Bool)
    (user_id permission : String) (allowed : Bool) (hasDb : Bool) :
    List AuditEntry :=
  if hasDb = false then []
  else if allowed = false ∨ permission ∈ SENSITIVE_LOG_PERMISSIONS then
    if user_id ∈ db.users then
      match tryInsertAudit insertFails
          { user_id := user_id, action := "permission_check",
            entity_type := "permission", entity_id := permission,
            allowed := some allowed } with
      | .ok rows => rows
      | .error _ => []
    else []
  else []

/-- `FormService._audit_log`: attempt the insert, roll back and swallow on
failure.  Returns the committed rows; never an exception. -/
def FormService.audit_log (insertFails : Bool)
    (entity_type entity_id action user_id : String) : List AuditEntry :=
  match tryInsertAudit insertFails
      { user_id := user_id, action := action, entity_type := entity_type,
        entity_id := entity_id, allowed := none } with
  | .ok rows => rows
  | .error _ => []

/-!  The gate dependencies `require_permission`, `require_any_permission`
and `require_all_permissions`.  Each request-scoped check is modelled as a
function from the store (and the audit-insert environment) to an outcome:
the decision taken, the invocations of the audit recorder
(`log_permission_check` calls) the check triggered, and the audit rows
those invocations committed.  The principal is the validated token's
subject (`user.sub`). -/

/-- What a gate check decides: pass the user through, reject with 403
carrying the unmet requirement, or reject with 500 on a catalog miss. -/
inductive GateDecision
  | allowed
  | denied (required : String)
  | configError (e : CatalogError)
deriving DecidableEq

/-- One invocation of the audit recorder: the permission string passed to
`log_permission_check` and the `allowed` flag. -/
structure RecorderCall where
  permission : String
  allowed : Bool
deriving DecidableEq

/-- The observable outcome of one gate check. -/
structure GateOutcome where
  decision : GateDecision
  recorder_calls : List RecorderCall
  audit_rows : List AuditEntry
deriving DecidableEq

/-- `require_permission(resource, action)`: resolve the pair through the
catalog (a miss is a 500 configuration error, not a denial), check the
permission, always invoke the recorder with the result, deny with 403 when
the permission is missing. -/
def require_permission (db : Db) (insertFails : Bool) (user_id : String)
    (resource action : String) : GateOutcome :=
  match get_permission_for_resource_action resource action with
  | .error e => { decision := .configError e, recorder_calls := [], audit_rows := [] }
  | .ok permission =>
    let has_perm := has_permission db user_id permission
    let rows := log_permission_check db insertFails user_id permission has_perm true
    { decision := if has_perm then .allowed else .denied permission
      recorder_calls := [{ permission := permission, allowed := has_perm }]
      audit_rows := rows }

/-- `require_any_permission(permissions...)`: ANY semantics; the recorder is
invoked with the permissions joined by the presentation-only separator
`"|"`, both on denial and on success. -/
def require_any_permission (db : Db) (insertFails : Bool) (user_id : String)
    (permissions : List String) : GateOutcome :=
  let has_perm := has_any_permission db user_id permissions
  let joined := String.intercalate "|" permissions
  let rows := log_permission_check db insertFails user_id joined has_perm true
  { decision := if has_perm then .allowed else .denied joined
    recorder_calls := [{ permission := joined, allowed := has_perm }]
    audit_rows := rows }

/-- `require_all_permissions(permissions...)`: ALL semantics; the recorder
is invoked with the permissions joined by the presentation-only separator
`"&"`, both on denial and on success. -/
def require_all_permissions (db : Db) (insertFails : Bool) (user_id : String)
    (permissions : List String) : GateOutcome :=
  let has_perm := has_all_permissions db user_id permissions
  let joined := String.intercalate "&" permissions
  let rows := log_permission_check db insertFails user_id joined has_perm true
  { decision := if has_perm then .allowed else .denied joined
    recorder_calls := [{ permission := joined, allowed := has_perm }]
    audit_rows := rows }

/-!  `backend/auth/dependencies.py`: the per-request authentication entry
point.  The raw bearer string is compared against the development demo
literal before any JWT processing; `parse` abstracts the compact-format
parsing that turns the wire string into a token value. -/

/-- Python `str.lower()` on the characters of the string (the environment
names compared here are ASCII). -/
def pyLower (s : String) : String :=
  ⟨s.data.map Char.toLower⟩

/-- `IS_DEVELOPMENT`: the `ENVIRONMENT` variable (defaulting to
`"production"`), lower-cased, equals `"development"`. -/
def IS_DEVELOPMENT (environment : Option String) : Bool :=
  pyLower (environment.getD "production") == "development"

/-- `get_current_user` rejects with HTTP 401 carrying the validation
failure. -/
inductive AuthError
  | unauthorized (e : ValidationError)
deriving DecidableEq

/-- The fixed principal returned for the development demo token. -/
def demoTokenData : TokenData :=
  { sub := some "550e8400-e29b-41d4-a716-446655440000"
    email := some "demo@example.com"
    name := some "Demo User"
    roles := ["admin"]
    token_type := "access" }

/-- `get_current_user`: in development mode the literal bearer string
`"demo-token"` short-circuits to the fixed demo principal with the role
`"admin"`, touching neither the parser nor the validator; every other
string — and every string in production — goes through full validation as
an access token, with failures mapped to 401. -/
def get_current_user (is_development : Bool) (key : Nat) (now : Int)
    (parse : String → TokenString) (credentials : String) :
    Except AuthError TokenData :=
  if is_development = true ∧ credentials = "demo-token" then
    .ok demoTokenData
  else
    match JWTHandler.validate_token key now (parse credentials) "access" with
    | .ok token_data => .ok token_data
    | .error e => .error (.unauthorized e)

/-!  Helper lemmas about decoding and validation. -/

lemma expHasPassed_iff (p : Payload) (now : Int) :
    expHasPassed p now ↔ ∃ e, p.exp = some e ∧ e ≤ now := by
  unfold expHasPassed
  cases p.exp <;> simp

lemma validate_token_ok_type (key : Nat) (now : Int) (t : TokenString)
    (ty : String) (td : TokenData)
    (h : JWTHandler.validate_token key now t ty = .ok td) :
    ∃ p, jwtDecode key true now t = .ok p ∧ p.tokType = some ty := by
  unfold JWTHandler.validate_token at h
  cases hd : jwtDecode key true now t with
  | error e => rw [hd] at h; exact absurd h (by simp)
  | ok p =>
    rw [hd] at h
    dsimp only at h
    refine ⟨p, rfl, ?_⟩
    by_contra hne
    rw [if_pos hne] at h
    exact Except.noConfusion h

lemma validate_token_type_mismatch (key : Nat) (now : Int) (t : TokenString)
    (ty : String) (p : Payload)
    (hd : jwtDecode key true now t = .ok p)
    (hne : p.tokType ≠ some ty) :
    JWTHandler.validate_token key now t ty = .error .typeMismatch := by
  unfold JWTHandler.validate_token
  rw [hd]
  dsimp only
  rw [if_pos hne]

/-- C1: `validate` accepts a token only when its embedded type discriminator
equals the expected type.  A fresh refresh token presented as `"access"` is
rejected with a type mismatch, a fresh access token presented as
`"refresh"` likewise, and in general any token that validates successfully
as one type is rejected with a type mismatch when presented as any other
type. -/
theorem c1_validate_rejects_wrong_token_type (key : Nat) (now : Int)
    (uid email name : String) (roles : List String) :
    JWTHandler.validate_token key now
        (JWTHandler.generate_refresh_token key now uid none) "access"
      = .error .typeMismatch
    ∧ JWTHandler.validate_token key now
        (JWTHandler.generate_access_token key now uid email name roles none)
        "refresh"
      = .error .typeMismatch
    ∧ ∀ (t : TokenString) (ty₁ ty₂ : String) (td : TokenData), ty₁ ≠ ty₂ →
        JWTHandler.validate_token key now t ty₁ = .ok td →
        JWTHandler.validate_token key now t ty₂ = .error .typeMismatch := by
  refine ⟨?_, ?_, ?_⟩
  · simp [JWTHandler.validate_token, JWTHandler.generate_refresh_token,
          jwtDecode, expHasPassed, REFRESH_TOKEN_EXPIRY]
  · simp [JWTHandler.validate_token, JWTHandler.generate_access_token,
          jwtDecode, expHasPassed, ACCESS_TOKEN_EXPIRY]
  · intro t ty₁ ty₂ td hne hok
    obtain ⟨p, hd, hty⟩ := validate_token_ok_type key now t ty₁ td hok
    exact validate_token_type_mismatch key now t ty₂ p hd
      (by rw [hty]; simpa using hne)

/-- Witness for C1: a concrete access token validates as `"access"` but is
rejected as `"refresh"`, via the theorem's third conjunct. -/
theorem c1_witness :
    ("access" : String) ≠ "refresh"
    ∧ JWTHandler.validate_token 0 0
        (JWTHandler.generate_access_token 0 0 "alice" "a@x" "Alice" ["admin"] none)
        "refresh" = .error .typeMismatch :=
  ⟨by decide,
   (c1_validate_rejects_wrong_token_type 0 0 "alice" "a@x" "Alice" ["admin"]).2.2
     (JWTHandler.generate_access_token 0 0 "alice" "a@x" "Alice" ["admin"] none)
     "access" "refresh"
     { sub := some "alice", email := some "a@x", name := some "Alice",
       roles := ["admin"], token_type := "access" }
     (by decide) (by decide)⟩

/-- C2: when the validated refresh token's embedded subject differs from the
supplied subject, `refresh_access_token` fails with the subject-mismatch
error, and whenever it does return a token, the refresh token validated
successfully with an embedded subject equal to the supplied one and the
returned token is an access token minted for exactly that subject. -/
theorem c2_refresh_subject_mismatch (key : Nat) (now : Int) (t : TokenString)
    (uid email name : String) (roles : List String) :
    (∀ td, JWTHandler.validate_token key now t "refresh" = .ok td →
        td.sub ≠ some uid →
        JWTHandler.refresh_access_token key now t uid email name roles
          = .error .subjectMismatch)
    ∧ (∀ tok, JWTHandler.refresh_access_token key now t uid email name roles
          = .ok tok →
        ∃ td, JWTHandler.validate_token key now t "refresh" = .ok td
          ∧ td.sub = some uid
          ∧ tok = JWTHandler.generate_access_token key now uid email name roles none) := by
  constructor
  · intro td hok hsub
    unfold JWTHandler.refresh_access_token
    rw [hok]
    dsimp only
    rw [if_pos hsub]
  · intro tok h
    unfold JWTHandler.refresh_access_token at h
    cases hv : JWTHandler.validate_token key now t "refresh" with
    | error e => rw [hv] at h; exact absurd h (by simp)
    | ok td =>
      rw [hv] at h
      dsimp only at h
      by_cases hsub : td.sub ≠ some uid
      · rw [if_pos hsub] at h; exact absurd h (by simp)
      · rw [if_neg hsub] at h
        injection h with h2
        exact ⟨td, rfl, not_not.mp hsub, h2.symm⟩

/-- Witness for C2: a refresh token minted for `"alice"` presented with
subject `"bob"` fails with the subject-mismatch error. -/
theorem c2_witness :
    JWTHandler.validate_token 0 0
        (JWTHandler.generate_refresh_token 0 0 "alice" none) "refresh"
      = .ok { sub := some "alice", email := some "", name := some "",
              roles := [], token_type := "refresh" }
    ∧ JWTHandler.refresh_access_token 0 0
        (JWTHandler.generate_refresh_token 0 0 "alice" none)
        "bob" "b@x" "Bob" [] = .error .subjectMismatch :=
  ⟨by decide,
   (c2_refresh_subject_mismatch 0 0
       (JWTHandler.generate_refresh_token 0 0 "alice" none) "bob" "b@x" "Bob" []).1
     { sub := some "alice", email := some "", name := some "",
       roles := [], token_type := "refresh" }
     (by decide) (by decide)⟩

/-- C5: issuing an access token and immediately validating it as `"access"`
succeeds and round-trips subject, email, name, and role list exactly. -/
theorem c5_access_token_round_trip (key : Nat) (now : Int) (s e n : String)
    (roles : List String) :
    JWTHandler.validate_token key now
        (JWTHandler.generate_access_token key now s e n roles none) "access"
      = .ok { sub := some s, email := some e, name := some n,
              roles := roles, token_type := "access" } := by
  simp [JWTHandler.validate_token, JWTHandler.generate_access_token, jwtDecode,
        expHasPassed, ACCESS_TOKEN_EXPIRY]

/-- C6: a well-formed, correctly signed token whose expiry has passed is
rejected by `validate` with the expired error, while
`get_token_expiry_seconds` on the same token returns `some 0`; in general
the remaining TTL is the clamped non-negative `exp - now`, and (for tokens
carrying an `exp` claim) the introspection returns `none` exactly when the
signature, audience, or issuer check fails, or — last conjunct — when the
token cannot be parsed. -/
theorem c6_expired_validate_vs_remaining_ttl (key : Nat) (now : Int)
    (ty : String) :
    (∀ (tok : SignedToken) (e : Int), tok.key = key →
        tok.payload.aud = TOKEN_AUDIENCE → tok.payload.iss = TOKEN_ISSUER →
        tok.payload.exp = some e → e ≤ now →
        JWTHandler.validate_token key now (.signed tok) ty = .error .expired
          ∧ JWTHandler.get_token_expiry_seconds key now (.signed tok) ty = some 0)
    ∧ (∀ (tok : SignedToken) (e : Int), tok.key = key →
        tok.payload.aud = TOKEN_AUDIENCE → tok.payload.iss = TOKEN_ISSUER →
        tok.payload.exp = some e →
        JWTHandler.get_token_expiry_seconds key now (.signed tok) ty
          = some (max 0 (e - now)))
    ∧ (∀ (tok : SignedToken) (e : Int), tok.payload.exp = some e →
        (JWTHandler.get_token_expiry_seconds key now (.signed tok) ty = none ↔
          (tok.key ≠ key ∨ tok.payload.aud ≠ TOKEN_AUDIENCE ∨
            tok.payload.iss ≠ TOKEN_ISSUER)))
    ∧ JWTHandler.get_token_expiry_seconds key now .malformed ty = none := by
  have hgood : ∀ (tok : SignedToken), tok.key = key →
      tok.payload.aud = TOKEN_AUDIENCE → tok.payload.iss = TOKEN_ISSUER →
      jwtDecode key false now (.signed tok) = .ok tok.payload := by
    intro tok hkey haud hiss
    simp only [jwtDecode]
    rw [if_neg (by simp [hkey]), if_neg (by simp), if_neg (by simp [haud]),
        if_neg (by simp [hiss])]
  have hexpiry : ∀ (tok : SignedToken) (e : Int), tok.key = key →
      tok.payload.aud = TOKEN_AUDIENCE → tok.payload.iss = TOKEN_ISSUER →
      tok.payload.exp = some e →
      JWTHandler.get_token_expiry_seconds key now (.signed tok) ty
        = some (max 0 (e - now)) := by
    intro tok e hkey haud hiss hexp
    unfold JWTHandler.get_token_expiry_seconds
    rw [hgood tok hkey haud hiss]
    dsimp only
    rw [hexp]
  refine ⟨?_, hexpiry, ?_, rfl⟩
  · intro tok e hkey haud hiss hexp hle
    constructor
    · have hd : jwtDecode key true now (.signed tok) = .error .expired := by
        simp only [jwtDecode]
        rw [if_neg (by simp [hkey]),
            if_pos ⟨trivial, (expHasPassed_iff tok.payload now).mpr ⟨e, hexp, hle⟩⟩]
      unfold JWTHandler.validate_token
      rw [hd]
      rfl
    · rw [hexpiry tok e hkey haud hiss hexp, max_eq_left (by omega)]
  · intro tok e hexp
    unfold JWTHandler.get_token_expiry_seconds
    simp only [jwtDecode]
    split_ifs with h1 h2 h3 h4
    · simp [h1]
    · exact absurd h2 (by simp)
    · simp [h3]
    · simp [h4]
    · dsimp only
      rw [hexp]
      simp_all

/-- Witness for C6: a concrete signed token that expired at 5, inspected at
time 10000. -/
theorem c6_witness :
    (5 : Int) ≤ 10000
    ∧ JWTHandler.validate_token 0 10000
        (.signed ⟨⟨some "alice", some "a@x", some "Alice", some [],
          TOKEN_ISSUER, TOKEN_AUDIENCE, some 5, some 0, some "access"⟩, 0⟩)
        "access" = .error .expired
    ∧ JWTHandler.get_token_expiry_seconds 0 10000
        (.signed ⟨⟨some "alice", some "a@x", some "Alice", some [],
          TOKEN_ISSUER, TOKEN_AUDIENCE, some 5, some 0, some "access"⟩, 0⟩)
        "access" = some 0 :=
  ⟨by decide,
   ((c6_expired_validate_vs_remaining_ttl 0 10000 "access").1
     ⟨⟨some "alice", some "a@x", some "Alice", some [],
       TOKEN_ISSUER, TOKEN_AUDIENCE, some 5, some 0, some "access"⟩, 0⟩
     5 rfl rfl rfl rfl (by decide)).1,
   ((c6_expired_validate_vs_remaining_ttl 0 10000 "access").1
     ⟨⟨some "alice", some "a@x", some "Alice", some [],
       TOKEN_ISSUER, TOKEN_AUDIENCE, some 5, some 0, some "access"⟩, 0⟩
     5 rfl rfl rfl rfl (by decide)).2⟩

/-!  Helper lemmas about the permission resolver. -/

lemma mem_foldl_union {α : Type} (f : α → Finset String) (l : List α)
    (init : Finset String) (x : String) :
    x ∈ l.foldl (fun acc ur => acc ∪ f ur) init ↔
      x ∈ init ∨ ∃ ur ∈ l, x ∈ f ur := by
  induction l generalizing init with
  | nil => simp
  | cons hd tl ih =>
    simp [List.foldl_cons, ih, Finset.mem_union, or_assoc]

lemma get_inherited_empty : get_inherited_permissions ∅ = ∅ := by
  simp [get_inherited_permissions]

lemma get_inherited_form_edit (s : Finset String)
    (h : "form:delete" ∈ s) :
    "form:edit" ∈ get_inherited_permissions s := by
  simp only [get_inherited_permissions, h, true_or, if_true]
  split_ifs <;> simp [Finset.mem_insert]

/-- C3: a principal absent from the store, or one none of whose stored role
assignments is both theirs and non-soft-deleted, resolves to the empty
permission set — not an error — and therefore `has_permission` is false for
every permission string. -/
theorem c3_absent_principal_resolves_empty (db : Db) (user_id : String)
    (h : user_id ∉ db.users ∨
      ∀ ur ∈ db.user_roles, ¬(ur.user_id = user_id ∧ ur.deleted_at = none)) :
    get_user_permissions db user_id = ∅
    ∧ ∀ p, has_permission db user_id p = false := by
  have hempty : get_user_permissions db user_id = ∅ := by
    by_cases hu : user_id ∈ db.users
    · rcases h with h | h
      · exact absurd hu h
      · unfold get_user_permissions
        rw [if_pos hu]
        dsimp only
        have hbase :
            (db.user_roles.filter
              (fun ur => decide (ur.user_id = user_id ∧ ur.deleted_at = none))).foldl
              (fun acc ur => acc ∪ assignmentPermissions ur) ∅ = (∅ : Finset String) := by
          apply Finset.eq_empty_iff_forall_not_mem.mpr
          intro x hx
          rcases (mem_foldl_union _ _ _ _).mp hx with hx0 | ⟨ur, hur, -⟩
          · exact absurd hx0 (Finset.not_mem_empty x)
          · rcases List.mem_filter.mp hur with ⟨hmem, hdec⟩
            exact h ur hmem (of_decide_eq_true hdec)
        rw [hbase, get_inherited_empty]
    · unfold get_user_permissions
      rw [if_neg hu]
  refine ⟨hempty, fun p => ?_⟩
  unfold has_permission
  rw [hempty]
  simp

/-- Concrete store used by the resolver witnesses: `u1` holds two live
roles, `u2` exists with no assignments. -/
def roleStaffEx : Role :=
  { name := "staff_manager", permissions := .plist ["form:delete", "form:read"],
    is_active := true, deleted_at := none }

def roleViewerEx : Role :=
  { name := "staff_viewer", permissions := .plist ["form:read"],
    is_active := true, deleted_at := none }

def urStaffEx : UserRole :=
  { user_id := "u1", role := some roleStaffEx, deleted_at := none }

def urViewerEx : UserRole :=
  { user_id := "u1", role := some roleViewerEx, deleted_at := none }

def dbEx : Db :=
  { users := ["u1", "u2"], user_roles := [urStaffEx, urViewerEx] }

/-- Witness for C3: `u2` exists but has no role assignments; their resolved
set is empty and a sample permission check is false. -/
theorem c3_witness :
    get_user_permissions dbEx "u2" = ∅
    ∧ has_permission dbEx "u2" "form:read" = false :=
  ⟨(c3_absent_principal_resolves_empty dbEx "u2" (Or.inr (by decide))).1,
   (c3_absent_principal_resolves_empty dbEx "u2" (Or.inr (by decide))).2 "form:read"⟩

/-- C4: when some live, non-soft-deleted assignment of the principal grants
`form:delete`, the resolved set contains `form:edit` (single-pass
inheritance), and the resolved set is unchanged under any permutation of
the stored assignment rows. -/
theorem c4_delete_implies_edit_order_free (db : Db) (user_id : String)
    (hu : user_id ∈ db.users)
    (hassign : ∃ ur ∈ db.user_roles, ur.user_id = user_id ∧ ur.deleted_at = none ∧
      ∃ role, ur.role = some role ∧ role.is_active = true ∧ role.deleted_at = none ∧
        "form:delete" ∈ rolePermissionStrings role.permissions) :
    "form:edit" ∈ get_user_permissions db user_id
    ∧ ∀ l', db.user_roles.Perm l' →
        get_user_permissions { db with user_roles := l' } user_id
          = get_user_permissions db user_id := by
  constructor
  · unfold get_user_permissions
    rw [if_pos hu]
    apply get_inherited_form_edit
    rcases hassign with ⟨ur, hmem, huid, hdel, role, hrole, hact, hrdel, hfd⟩
    apply (mem_foldl_union _ _ _ _).mpr
    refine Or.inr ⟨ur, List.mem_filter.mpr ⟨hmem, decide_eq_true ⟨huid, hdel⟩⟩, ?_⟩
    unfold assignmentPermissions
    rw [hrole]
    dsimp only
    rw [if_pos ⟨hact, hrdel⟩]
    exact hfd
  · intro l' hperm
    unfold get_user_permissions
    rw [if_pos hu, if_pos hu]
    have hfilter :
        (db.user_roles.filter
          (fun ur => decide (ur.user_id = user_id ∧ ur.deleted_at = none))).Perm
        (l'.filter
          (fun ur => decide (ur.user_id = user_id ∧ ur.deleted_at = none))) :=
      hperm.filter _
    have hbase :
        (l'.filter
          (fun ur => decide (ur.user_id = user_id ∧ ur.deleted_at = none))).foldl
          (fun acc ur => acc ∪ assignmentPermissions ur) ∅ =
        (db.user_roles.filter
          (fun ur => decide (ur.user_id = user_id ∧ ur.deleted_at = none))).foldl
          (fun acc ur => acc ∪ assignmentPermissions ur) ∅ := by
      apply Finset.ext
      intro x
      rw [mem_foldl_union, mem_foldl_union]
      constructor
      · rintro (hx | ⟨ur, hur, hx⟩)
        · exact Or.inl hx
        · exact Or.inr ⟨ur, hfilter.mem_iff.mpr hur, hx⟩
      · rintro (hx | ⟨ur, hur, hx⟩)
        · exact Or.inl hx
        · exact Or.inr ⟨ur, hfilter.mem_iff.mp hur, hx⟩
    dsimp only
    rw [hbase]

/-- Witness for C4: `u1` holds a role granting `form:delete`, so the
resolved set contains `form:edit`, and swapping the two assignment rows
leaves the resolved set unchanged. -/
theorem c4_witness :
    "form:edit" ∈ get_user_permissions dbEx "u1"
    ∧ get_user_permissions { dbEx with user_roles := [urViewerEx, urStaffEx] } "u1"
        = get_user_permissions dbEx "u1" :=
  ⟨(c4_delete_implies_edit_order_free dbEx "u1" (by decide)
      ⟨urStaffEx, by decide, rfl, rfl, roleStaffEx, rfl, rfl, rfl, by decide⟩).1,
   (c4_delete_implies_edit_order_free dbEx "u1" (by decide)
      ⟨urStaffEx, by decide, rfl, rfl, roleStaffEx, rfl, rfl, rfl, by decide⟩).2
     [urViewerEx, urStaffEx] (by decide)⟩

/-!  Gate and recorder lemmas. -/

lemma log_permission_check_eq (db : Db) (insertFails : Bool)
    (user_id permission : String) (allowed : Bool) :
    log_permission_check db insertFails user_id permission allowed true =
      if (allowed = false ∨ permission ∈ SENSITIVE_LOG_PERMISSIONS)
          ∧ user_id ∈ db.users ∧ insertFails = false then
        [{ user_id := user_id, action := "permission_check",
           entity_type := "permission", entity_id := permission,
           allowed := some allowed }]
      else [] := by
  unfold log_permission_check tryInsertAudit
  cases insertFails <;> split_ifs <;> simp_all

/-- C7: for each gate dependency, every check — denied or allowed — invokes
the audit recorder exactly once with the checked permission string (joined
with the presentation-only separator for the ANY/ALL variants) and the
outcome flag; an allowed check whose recorded permission string is not on
the sensitive list commits no audit row; a denied check, and an allowed
check of a sensitive permission string, commits a row whenever the
principal exists and the insert succeeds. -/
theorem c7_gate_audits_denials_and_sensitive (db : Db) (insertFails : Bool)
    (user_id : String) :
    (∀ resource action permission,
      get_permission_for_resource_action resource action = .ok permission →
      (require_permission db insertFails user_id resource action).recorder_calls
          = [{ permission := permission,
               allowed := has_permission db user_id permission }]
        ∧ ((require_permission db insertFails user_id resource action).decision
              = .allowed ∧ permission ∉ SENSITIVE_LOG_PERMISSIONS →
            (require_permission db insertFails user_id resource action).audit_rows = [])
        ∧ ((require_permission db insertFails user_id resource action).decision
              = .denied permission ∧ user_id ∈ db.users ∧ insertFails = false →
            (require_permission db insertFails user_id resource action).audit_rows ≠ [])
        ∧ ((require_permission db insertFails user_id resource action).decision
              = .allowed ∧ permission ∈ SENSITIVE_LOG_PERMISSIONS
              ∧ user_id ∈ db.users ∧ insertFails = false →
            (require_permission db insertFails user_id resource action).audit_rows ≠ []))
    ∧ (∀ permissions : List String,
        (require_any_permission db insertFails user_id permissions).recorder_calls
          = [{ permission := String.intercalate "|" permissions,
               allowed := has_any_permission db user_id permissions }]
        ∧ ((require_any_permission db insertFails user_id permissions).decision = .allowed
            ∧ String.intercalate "|" permissions ∉ SENSITIVE_LOG_PERMISSIONS →
            (require_any_permission db insertFails user_id permissions).audit_rows = [])
        ∧ ((require_any_permission db insertFails user_id permissions).decision
              = .denied (String.intercalate "|" permissions)
            ∧ user_id ∈ db.users ∧ insertFails = false →
            (require_any_permission db insertFails user_id permissions).audit_rows ≠ [])
        ∧ ((require_any_permission db insertFails user_id permissions).decision = .allowed
            ∧ String.intercalate "|" permissions ∈ SENSITIVE_LOG_PERMISSIONS
            ∧ user_id ∈ db.users ∧ insertFails = false →
            (require_any_permission db insertFails user_id permissions).audit_rows ≠ []))
    ∧ (∀ permissions : List String,
        (require_all_permissions db insertFails user_id permissions).recorder_calls
          = [{ permission := String.intercalate "&" permissions,
               allowed := has_all_permissions db user_id permissions }]
        ∧ ((require_all_permissions db insertFails user_id permissions).decision = .allowed
            ∧ String.intercalate "&" permissions ∉ SENSITIVE_LOG_PERMISSIONS →
            (require_all_permissions db insertFails user_id permissions).audit_rows = [])
        ∧ ((require_all_permissions db insertFails user_id permissions).decision
              = .denied (String.intercalate "&" permissions)
            ∧ user_id ∈ db.users ∧ insertFails = false →
            (require_all_permissions db insertFails user_id permissions).audit_rows ≠ [])
        ∧ ((require_all_permissions db insertFails user_id permissions).decision = .allowed
            ∧ String.intercalate "&" permissions ∈ SENSITIVE_LOG_PERMISSIONS
            ∧ user_id ∈ db.users ∧ insertFails = false →
            (require_all_permissions db insertFails user_id permissions).audit_rows ≠ [])) := by
  refine ⟨?_, ?_, ?_⟩
  · intro resource action permission hr
    unfold require_permission
    rw [hr]
    dsimp only
    rw [log_permission_check_eq]
    cases hp : has_permission db user_id permission with
    | false => simp [hp]
    | true =>
      simp [hp]
      intro h1 h2 h3
      exact absurd h2 h1
  · intro permissions
    unfold require_any_permission
    dsimp only
    rw [log_permission_check_eq]
    cases hp : has_any_permission db user_id permissions with
    | false => simp [hp]
    | true =>
      simp [hp]
      intro h1 h2 h3
      exact absurd h2 h1
  · intro permissions
    unfold require_all_permissions
    dsimp only
    rw [log_permission_check_eq]
    cases hp : has_all_permissions db user_id permissions with
    | false => simp [hp]
    | true =>
      simp [hp]
      intro h1 h2 h3
      exact absurd h2 h1

/-- Witness for C7: `u2` has no permissions, so `forms:read` resolves,
the recorder is invoked with the denial, and a denial row is committed. -/
theorem c7_witness :
    get_permission_for_resource_action "forms" "read" = .ok "form:read"
    ∧ (require_permission dbEx false "u2" "forms" "read").recorder_calls
        = [{ permission := "form:read",
             allowed := has_permission dbEx "u2" "form:read" }]
    ∧ (require_permission dbEx false "u2" "forms" "read").audit_rows ≠ [] :=
  ⟨by decide,
   ((c7_gate_audits_denials_and_sensitive dbEx false "u2").1
     "forms" "read" "form:read" (by decide)).1,
   ((c7_gate_audits_denials_and_sensitive dbEx false "u2").1
     "forms" "read" "form:read" (by decide)).2.2.1 ⟨by decide, by decide, rfl⟩⟩

/-- C8: the audit recorder is a silent no-op when the referenced principal
is absent from the store; a failing insert commits nothing and is swallowed
(both in `log_permission_check` and in `FormService._audit_log`); and the
decision of every gate check is unchanged by audit-insert failure, so audit
recording never fails the caller's primary operation. -/
theorem c8_audit_recorder_never_fails_caller :
    (∀ (db : Db) (insertFails : Bool) (user_id permission : String)
        (allowed hasDb : Bool), user_id ∉ db.users →
        log_permission_check db insertFails user_id permission allowed hasDb = [])
    ∧ (∀ (db : Db) (user_id permission : String) (allowed hasDb : Bool),
        log_permission_check db true user_id permission allowed hasDb = [])
    ∧ (∀ e_type e_id act uid : String,
        FormService.audit_log true e_type e_id act uid = [])
    ∧ (∀ (db : Db) (f f' : Bool) (uid r a : String),
        (require_permission db f uid r a).decision
          = (require_permission db f' uid r a).decision)
    ∧ (∀ (db : Db) (f f' : Bool) (uid : String) (ps : List String),
        (require_any_permission db f uid ps).decision
          = (require_any_permission db f' uid ps).decision)
    ∧ (∀ (db : Db) (f f' : Bool) (uid : String) (ps : List String),
        (require_all_permissions db f uid ps).decision
          = (require_all_permissions db f' uid ps).decision) := by
  refine ⟨?_, ?_, ?_, ?_, ?_, ?_⟩
  · intro db fails uid perm allowed hasDb h
    unfold log_permission_check tryInsertAudit
    cases fails <;> split_ifs <;> simp_all
  · intro db uid perm allowed hasDb
    unfold log_permission_check tryInsertAudit
    split_ifs <;> simp_all
  · intro e_type e_id act uid
    rfl
  · intro db f f' uid r a
    unfold require_permission
    cases hc : get_permission_for_resource_action r a <;> rfl
  · intro db f f' uid ps
    rfl
  · intro db f f' uid ps
    rfl

/-- Witness for C8: recording against an absent principal commits nothing
and returns normally. -/
theorem c8_witness :
    "ghost" ∉ dbEx.users
    ∧ log_permission_check dbEx false "ghost" "form:read" false true = [] :=
  ⟨by decide,
   c8_audit_recorder_never_fails_caller.1 dbEx false "ghost" "form:read"
     false true (by decide)⟩

/-- C9: the catalog resolves `("forms", "archive")` to `form:archive`,
fails with the unknown-resource error on `("unknown", "read")`, and in
general returns a permission exactly when the (resource, action) pair is
registered in `RESOURCE_ACTION_PERMISSIONS` — never a default for an
unregistered pair. -/
theorem c9_catalog_resolve_no_default :
    get_permission_for_resource_action "forms" "archive" = .ok "form:archive"
    ∧ get_permission_for_resource_action "unknown" "read"
        = .error (.unknownResource "unknown")
    ∧ ∀ resource action p,
        get_permission_for_resource_action resource action = .ok p ↔
        ∃ entry, RESOURCE_ACTION_PERMISSIONS.find? (fun e => e.fst == resource)
            = some entry
          ∧ ∃ pair, entry.snd.find? (fun e => e.fst == action) = some pair
            ∧ pair.snd = p := by
  refine ⟨by decide, by decide, ?_⟩
  intro r a p
  unfold get_permission_for_resource_action
  cases h1 : RESOURCE_ACTION_PERMISSIONS.find? (fun e => e.fst == r) with
  | none => simp [h1]
  | some entry =>
    dsimp only
    cases h2 : entry.snd.find? (fun e => e.fst == a) with
    | none => simp [h1, h2]
    | some pair =>
      simp only [h1, h2, Option.some.injEq, Except.ok.injEq]
      constructor
      · intro hp
        exact ⟨entry, rfl, pair, h2, hp⟩
      · rintro ⟨e2, he, p2, hpair, hp⟩
        subst he
        rw [h2] at hpair
        injection hpair with hq
        rw [hq, hp]

/-- C10: with `ENVIRONMENT=development` the literal bearer string
`"demo-token"` short-circuits authentication to the fixed demo principal
carrying the role `"admin"`, independent of key, clock, and parser (so no
signature, issuer, audience, or expiry verification happens); every other
bearer string, and every string when not in development, is fully validated
as an access token. -/
theorem c10_dev_demo_token_bypass :
    IS_DEVELOPMENT (some "development") = true
    ∧ IS_DEVELOPMENT none = false
    ∧ (∀ (key : Nat) (now : Int) (parse : String → TokenString),
        get_current_user true key now parse "demo-token" = .ok demoTokenData)
    ∧ demoTokenData.roles = ["admin"]
    ∧ (∀ (key : Nat) (now : Int) (parse : String → TokenString) (s : String),
        s ≠ "demo-token" →
        get_current_user true key now parse s
          = (JWTHandler.validate_token key now (parse s) "access").mapError .unauthorized)
    ∧ (∀ (key : Nat) (now : Int) (parse : String → TokenString) (s : String),
        get_current_user false key now parse s
          = (JWTHandler.validate_token key now (parse s) "access").mapError .unauthorized) := by
  refine ⟨by decide, by decide, ?_, rfl, ?_, ?_⟩
  · intro key now parse
    unfold get_current_user
    rw [if_pos ⟨rfl, rfl⟩]
  · intro key now parse s hs
    unfold get_current_user
    rw [if_neg (by simp [hs])]
    cases JWTHandler.validate_token key now (parse s) "access" <;>
      simp [Except.mapError]
  · intro key now parse s
    unfold get_current_user
    rw [if_neg (by simp)]
    cases JWTHandler.validate_token key now (parse s) "access" <;>
      simp [Except.mapError]

/-- Witness for C10: a non-demo bearer string in development mode goes
through full access-token validation. -/
theorem c10_witness :
    ("sometoken" : String) ≠ "demo-token"
    ∧ get_current_user true 0 0 (fun _ => TokenString.malformed) "sometoken"
        = (JWTHandler.validate_token 0 0 TokenString.malformed "access").mapError
            AuthError.unauthorized :=
  ⟨by decide,
   (c10_dev_demo_token_bypass).2.2.2.2.1 0 0 (fun _ => TokenString.malformed)
     "sometoken" (by decide)⟩

end TransportationForms
